import Mathlib

/-
Verification development for the airline-bids analysis pipeline
(src/airline_dashboard.py).  The Python code is shallowly embedded:
spreadsheet cell values become the `Cell` type, pandas dataframes become
lists of `BidRecord`, numeric coercion with errors=coerce becomes
`toNumeric : Cell -> Option Rat`, and code that can raise becomes
`Except LoadError`.  Machine floats are modelled by the rationals; the
single place where IEEE semantics matters (division by zero producing a
non-finite value) is modelled by `fdiv` returning `none`.
-/

/-- Cell models a raw spreadsheet cell value as seen by openpyxl:
None (`empty`), a text value, or a numeric value. -/
inductive Cell where
  | empty : Cell
  | str : String → Cell
  | num : ℚ → Cell
deriving DecidableEq, Repr

/-- Cell.truthy models Python truthiness of a cell value, used by the
row filter at line 111 and the header placeholder at line 101:
None, the empty string and the number 0 are falsy. -/
def Cell.truthy : Cell → Bool
  | Cell.empty => false
  | Cell.str s => decide (s ≠ "")
  | Cell.num q => decide (q ≠ 0)

/-- parseDigits reads a nonempty all-digit character list as a natural
number (helper for the decimal parser). -/
def parseDigits (cs : List Char) : Option Nat :=
  if cs = [] then none
  else if cs.all (fun c => c.isDigit) then
    some (cs.foldl (fun n c => n * 10 + (c.toNat - 48)) 0)
  else none

/-- isSpaceChar recognizes the whitespace characters stripped around a
numeric literal. -/
def isSpaceChar (c : Char) : Bool :=
  c == ' ' || c == '\t' || c == '\n' || c == '\r'

/-- trimChars strips whitespace from both ends of a character list. -/
def trimChars (cs : List Char) : List Char :=
  ((cs.dropWhile isSpaceChar).reverse.dropWhile isSpaceChar).reverse

/-- strTrim is whitespace stripping on strings (str.strip()). -/
def strTrim (s : String) : String :=
  String.mk (trimChars s.data)

/-- splitDot splits a character list at every dot, like a split on the
decimal point. -/
def splitDot : List Char → List (List Char)
  | [] => [[]]
  | c :: cs =>
    let r := splitDot cs
    if c = '.' then [] :: r
    else
      match r with
      | [] => [[c]]
      | h :: t => (c :: h) :: t

/-- parseDecimal models the numeric-string parsing performed by
pd.to_numeric on standard decimal literals: optional sign, an integer
part and an optional fractional part, surrounding whitespace stripped.
Anything else fails. -/
def parseDecimal (s : String) : Option ℚ :=
  let cs := trimChars s.data
  let sgn : ℚ :=
    match cs with
    | '-' :: _ => -1
    | _ => 1
  let body : List Char :=
    match cs with
    | '-' :: rest => rest
    | '+' :: rest => rest
    | _ => cs
  match splitDot body with
  | [ip] =>
    match parseDigits ip with
    | some n => some (sgn * (n : ℚ))
    | none => none
  | [ip, fp] =>
    match parseDigits ip, parseDigits fp with
    | some n, some f => some (sgn * ((n : ℚ) + (f : ℚ) / ((10 : ℚ) ^ fp.length)))
    | _, _ => none
  | _ => none

/-- toNumeric models pd.to_numeric(col, errors=coerce) applied to one
cell (lines 146-149): numbers pass through, parseable strings are
parsed, everything else (including None) becomes null. -/
def toNumeric : Cell → Option ℚ
  | Cell.num q => some q
  | Cell.str s => parseDecimal s
  | Cell.empty => none

/-- get_color_from_rating is the classifier of lines 155-165: a null
rating is gray, 1 is green (Best), 2 is orange (Fair), 3 is red
(Premium), any other number is gray. -/
def get_color_from_rating (rating : Option ℚ) : String :=
  match rating with
  | none => "#6b7280"
  | some q =>
    if q = 1 then "#10b981"
    else if q = 2 then "#f59e0b"
    else if q = 3 then "#ef4444"
    else "#6b7280"

/-- cleanRatingCategory models lines 170-172: astype(str) (None prints
as nan), str.strip(), then the exact strings nan and the empty string
are replaced by Unknown.  No case folding and no tier mapping happens
here. -/
def cleanRatingCategory : Cell → String
  | Cell.empty => "Unknown"
  | Cell.str s =>
    let t := strTrim s
    if t = "nan" ∨ t = "" then "Unknown" else t
  | Cell.num q => toString q

/-- applyMapping is the column_mapping table of lines 118-138, applied
to one source header label; unknown labels are kept unchanged (pandas
rename leaves them alone). -/
def applyMapping (s : String) : String :=
  if s = "Commodity Group" then "commodity_group"
  else if s = "TempControlled" then "temp_controlled"
  else if s = "Air Mode" then "air_mode"
  else if s = "Origin Airport" then "origin_airport"
  else if s = "Destination Airport" then "destination_airport"
  else if s = "Origin Country" then "origin_country"
  else if s = "Destinatin Country" then "destination_country"
  else if s = "Origin Region" then "origin_region"
  else if s = "Destination Region" then "destination_region"
  else if s = "Airline" then "airline"
  else if s = "Intention to Bid (Yes/No)" then "intention_to_bid"
  else if s = "Direct / Indirect" then "direct_indirect"
  else if s = "Via" then "via"
  else if s = "Currency" then "currency"
  else if s = "Min Charge" then "min_charge"
  else if s = "Min Charge2" then "min_charge2"
  else if s = "Percentage" then "percentage"
  else if s = "Numerical Rating" then "rating"
  else if s = "Column1" then "rating_category"
  else s

/-- renameHeader applies the column mapping to a header cell; only text
headers can be renamed. -/
def renameHeader : Cell → Cell
  | Cell.str s => Cell.str (applyMapping s)
  | c => c

/-- colIdx finds the position of the column carrying a canonical field
name after renaming (first occurrence, as for a unique pandas label). -/
def colIdx (headers : List Cell) (canon : String) : Option Nat :=
  (headers.map renameHeader).findIdx? (fun c => decide (c = Cell.str canon))

/-- mkHeaders models lines 99-101: a falsy header cell is replaced by
the placeholder col_i, where i is the 1-based sheet column (the loop
starts at column 3). -/
def mkHeaders (cells : List Cell) : List Cell :=
  cells.enum.map (fun p => if p.2.truthy then p.2 else Cell.str ("col_" ++ toString (p.1 + 3)))

/-- padRow models the fixed column span of the reader loop (lines
104-108): every row is read over exactly the header span, missing cells
coming back as None from openpyxl. -/
def padRow (w : Nat) (r : List Cell) : List Cell :=
  (List.range w).map (fun i => r.getD i Cell.empty)

/-- LoadError enumerates the exceptions the try block of load_data can
raise past the sheet check: positional IndexError from row_data[13],
KeyError from a missing canonical column, TypeError from concatenating
a non-string airport value into the route. -/
inductive LoadError where
  | indexError : LoadError
  | keyError : LoadError
  | typeError : LoadError
deriving DecidableEq, Repr

/-- BidRecord is one normalized row of the dataframe built by
load_data, restricted to the fields the analytics read. -/
structure BidRecord where
  origin_airport : Cell
  destination_airport : Cell
  airline : Cell
  min_charge2 : Option ℚ
  rating : Option ℚ
  rating_category : Option String
  route : Option String
  color : String
deriving DecidableEq, Repr

/-- validRecord is the dropna subset check of line 175: the record is
kept iff origin_airport, destination_airport, airline and min_charge2
are all non-null. -/
def validRecord (r : BidRecord) : Bool :=
  decide (r.origin_airport ≠ Cell.empty) &&
  decide (r.destination_airport ≠ Cell.empty) &&
  decide (r.airline ≠ Cell.empty) &&
  r.min_charge2.isSome

/-- rowCheck models line 111, `row_data[3] and row_data[4] and
row_data[13]`, including Python short-circuit evaluation and the
IndexError raised when the row span is too small. -/
def rowCheck (row : List Cell) : Except LoadError Bool :=
  if row.length ≤ 3 then Except.error LoadError.indexError
  else if !(row.getD 3 Cell.empty).truthy then Except.ok false
  else if row.length ≤ 4 then Except.error LoadError.indexError
  else if !(row.getD 4 Cell.empty).truthy then Except.ok false
  else if row.length ≤ 13 then Except.error LoadError.indexError
  else Except.ok (row.getD 13 Cell.empty).truthy

/-- filterRowsM is the reader loop of lines 104-112: rows whose key
cells are truthy are collected; an IndexError aborts the whole load. -/
def filterRowsM : List (List Cell) → Except LoadError (List (List Cell))
  | [] => Except.ok []
  | r :: rs =>
    match rowCheck r with
    | Except.error e => Except.error e
    | Except.ok b =>
      match filterRowsM rs with
      | Except.error e => Except.error e
      | Except.ok rest => Except.ok (if b then r :: rest else rest)

/-- routeOfPair models line 152, the element-wise string concatenation
origin + arrow + destination: null propagates (pandas masks NaN), and a
numeric operand raises TypeError. -/
def routeOfPair : Cell → Cell → Except LoadError (Option String)
  | Cell.num _, _ => Except.error LoadError.typeError
  | Cell.empty, _ => Except.ok none
  | Cell.str _, Cell.num _ => Except.error LoadError.typeError
  | Cell.str _, Cell.empty => Except.ok none
  | Cell.str a, Cell.str b => Except.ok (some (a ++ " → " ++ b))

/-- mapExcept applies a fallible element operation across a list,
stopping at the first error, as a column-wise pandas operation does. -/
def mapExcept {α β : Type} (f : α → Except LoadError β) : List α → Except LoadError (List β)
  | [] => Except.ok []
  | a :: as =>
    match f a with
    | Except.error e => Except.error e
    | Except.ok b =>
      match mapExcept f as with
      | Except.error e => Except.error e
      | Except.ok bs => Except.ok (b :: bs)

/-- normalizeRows models lines 115-172 on the reader-filtered rows:
rename columns, coerce min_charge2 and rating with errors=coerce,
derive route (KeyError if either airport column is absent, TypeError on
non-string airports), derive color from the rating column (its absence
is an unguarded KeyError at line 167), clean rating_category when
present, and finally record the columns the dropna of line 175 needs
(KeyError if airline or min_charge2 is absent). -/
def normalizeRows (headers : List Cell) (rows : List (List Cell)) : Except LoadError (List BidRecord) :=
  match colIdx headers "origin_airport" with
  | none => Except.error LoadError.keyError
  | some oIdx =>
    match colIdx headers "destination_airport" with
    | none => Except.error LoadError.keyError
    | some dIdx =>
      match mapExcept (fun row => routeOfPair (row.getD oIdx Cell.empty) (row.getD dIdx Cell.empty)) rows with
      | Except.error e => Except.error e
      | Except.ok routes =>
        match colIdx headers "rating" with
        | none => Except.error LoadError.keyError
        | some rIdx =>
          match colIdx headers "airline" with
          | none => Except.error LoadError.keyError
          | some aIdx =>
            match colIdx headers "min_charge2" with
            | none => Except.error LoadError.keyError
            | some mIdx =>
              Except.ok ((rows.zip routes).map (fun p =>
                { origin_airport := p.1.getD oIdx Cell.empty
                  destination_airport := p.1.getD dIdx Cell.empty
                  airline := p.1.getD aIdx Cell.empty
                  min_charge2 := toNumeric (p.1.getD mIdx Cell.empty)
                  rating := toNumeric (p.1.getD rIdx Cell.empty)
                  rating_category := (colIdx headers "rating_category").map
                    (fun j => cleanRatingCategory (p.1.getD j Cell.empty))
                  route := p.2
                  color := get_color_from_rating (toNumeric (p.1.getD rIdx Cell.empty)) }))

/-- Workbook models the part of an Excel workbook load_data reads: the
sheet name list, the header row (row 11, from column 3 to the sheet
extent) and the data rows (rows 12 onward over the same span). -/
structure Workbook where
  sheetnames : List String
  headerCells : List Cell
  dataRows : List (List Cell)
deriving Repr

/-- paddedRows reads every data row over exactly the header span, as
the cell loop of lines 104-108 does. -/
def paddedRows (wb : Workbook) : List (List Cell) :=
  wb.dataRows.map (padRow wb.headerCells.length)

/-- loadDataBody is the body of the try block of load_data after the
sheet-name check: reader filter, then normalization, then the dropna
validity filter of line 175. -/
def loadDataBody (wb : Workbook) : Except LoadError (List BidRecord) :=
  match filterRowsM (paddedRows wb) with
  | Except.error e => Except.error e
  | Except.ok rows =>
    match normalizeRows (mkHeaders wb.headerCells) rows with
    | Except.error e => Except.error e
    | Except.ok recs => Except.ok (recs.filter validRecord)

/-- loadData is load_data (lines 82-181): a missing Airline Bids sheet
returns None at once (lines 88-90), and any exception inside the body
is caught by the handler of lines 179-181, which also returns None. -/
def loadData (wb : Workbook) : Option (List BidRecord) :=
  if "Airline Bids" ∈ wb.sheetnames then
    match loadDataBody wb with
    | Except.ok recs => some recs
    | Except.error _ => none
  else none

/-- priceOf reads the canonical price of a record; analytics only ever
see validated records, whose price is non-null. -/
def priceOf (r : BidRecord) : ℚ :=
  r.min_charge2.getD 0

/-- argminBy models Series.idxmin row selection: the first record
attaining the minimum of f. -/
def argminBy (f : BidRecord → ℚ) : List BidRecord → Option BidRecord
  | [] => none
  | r :: rs => some (rs.foldl (fun acc x => if f x < f acc then x else acc) r)

/-- argmaxBy models Series.idxmax row selection: the first record
attaining the maximum of f. -/
def argmaxBy (f : BidRecord → ℚ) : List BidRecord → Option BidRecord
  | [] => none
  | r :: rs => some (rs.foldl (fun acc x => if f acc < f x then x else acc) r)

/-- fdiv models IEEE float division as performed at line 379: a zero
divisor yields a non-finite value (inf or nan), represented by none; a
nonzero divisor yields the exact quotient. -/
def fdiv (a b : ℚ) : Option ℚ :=
  if b = 0 then none else some (a / b)

/-- Recommendation collects what show_carrier_insights reports: the
recommended (minimum-price) record, the baseline (maximum-price, equal
to the recommended one for a singleton route), and the cost block of
lines 377-389, which is rendered only when the route has more than one
record; its percentage is none when the unguarded division by a zero
baseline price produced a non-finite value. -/
structure Recommendation where
  recommended : BidRecord
  baseline : BidRecord
  savingsInfo : Option (ℚ × Option ℚ)
deriving DecidableEq, Repr

/-- show_carrier_insights models lines 351-389: best_option by idxmin,
worst_option by idxmax when more than one record (else the best), and
savings = worst - best with savings_pct = (savings / worst) * 100
computed only when more than one record, with no zero guard. -/
def show_carrier_insights (route_data : List BidRecord) : Option Recommendation :=
  match argminBy priceOf route_data with
  | none => none
  | some best =>
    let worst :=
      if 1 < route_data.length then (argmaxBy priceOf route_data).getD best else best
    let savings := priceOf worst - priceOf best
    let savingsInfo :=
      if 1 < route_data.length then
        some (savings, (fdiv savings (priceOf worst)).map (fun p => p * 100))
      else none
    some { recommended := best, baseline := worst, savingsInfo := savingsInfo }

/-- minStep is the binary min used to fold a pandas Series.min. -/
def minStep (a b : ℚ) : ℚ :=
  if b < a then b else a

/-- maxStep is the binary max used to fold a pandas Series.max. -/
def maxStep (a b : ℚ) : ℚ :=
  if a < b then b else a

/-- listMin models Series.min over the non-null values; it is only
meaningful on a nonempty list (pandas returns NaN on an empty one). -/
def listMin : List ℚ → ℚ
  | [] => 0
  | q :: qs => qs.foldl minStep q

/-- listMax models Series.max over the non-null values. -/
def listMax : List ℚ → ℚ
  | [] => 0
  | q :: qs => qs.foldl maxStep q

/-- listMean models Series.mean over the non-null values. -/
def listMean (l : List ℚ) : ℚ :=
  l.sum / (l.length : ℚ)

/-- nuniqueCells models Series.nunique: distinct values, nulls
excluded. -/
def nuniqueCells (l : List Cell) : Nat :=
  (l.filter (fun c => decide (c ≠ Cell.empty))).dedup.length

/-- routeGroup is the route restriction of line 253: the records whose
origin and destination equal the selected pair. -/
def routeGroup (df : List BidRecord) (origin dest : Cell) : List BidRecord :=
  df.filter (fun r =>
    decide (r.origin_airport = origin) && decide (r.destination_airport = dest))

/-- carrierGroup is one group of the groupby on airline at line 435. -/
def carrierGroup (df : List BidRecord) (a : Cell) : List BidRecord :=
  df.filter (fun r => decide (r.airline = a))

/-- RouteSummary carries the metrics of lines 264-283. -/
structure RouteSummary where
  carrier_count : Nat
  min_price : ℚ
  mean_price : ℚ
  max_price : ℚ
  price_spread : ℚ
deriving DecidableEq, Repr

/-- insertByPrice is one insertion step of the price sort. -/
def insertByPrice (r : BidRecord) : List BidRecord → List BidRecord
  | [] => [r]
  | x :: xs => if priceOf r ≤ priceOf x then r :: x :: xs else x :: insertByPrice r xs

/-- sortByPrice models sort_values on min_charge2 at line 289 as an
insertion sort; pandas leaves the order of equal keys unspecified, and
no theorem below depends on it. -/
def sortByPrice : List BidRecord → List BidRecord
  | [] => []
  | r :: rs => insertByPrice r (sortByPrice rs)

/-- create_route_analysis models lines 251-289 and the returned
route_data of line 349: filter the dataframe to the selected route;
None on an empty result (line 255-257); otherwise the metric block of
lines 264-283 (price spread only when more than one record, else 0)
and the price-sorted route records. -/
def create_route_analysis (df : List BidRecord) (origin dest : Cell) :
    Option (RouteSummary × List BidRecord) :=
  let route_data := routeGroup df origin dest
  if route_data.isEmpty then none
  else
    let prices := route_data.filterMap (fun r => r.min_charge2)
    some ({ carrier_count := nuniqueCells (route_data.map (fun r => r.airline))
            min_price := listMin prices
            mean_price := listMean prices
            max_price := listMax prices
            price_spread := if 1 < route_data.length then listMax prices - listMin prices else 0 },
          sortByPrice route_data)

/-- round2 models DataFrame.round(2) as applied at line 439; numpy
rounding is to the nearest representable value, modelled as rounding
the exact rational to two decimal places. -/
def round2 (q : ℚ) : ℚ :=
  ((round (q * 100) : ℤ) : ℚ) / 100

/-- CarrierSummary is one row of the airline_stats frame of lines
435-443. -/
structure CarrierSummary where
  airline : Cell
  avg_rate : ℚ
  min_rate : ℚ
  max_rate : ℚ
  total_bids : Nat
  routes_served : Nat
  competitiveness_score : ℚ
deriving DecidableEq, Repr

/-- carrierStats models one group of the groupby-agg of lines 435-443:
mean, min, max and count over min_charge2 (count skips nulls), nunique
over route, and the competitiveness lambda
(x == 1).sum() / len(x) * 100 guarded to 0 on an empty group, the
whole frame rounded to two decimals. -/
def carrierStats (df : List BidRecord) (a : Cell) : CarrierSummary :=
  let grp := carrierGroup df a
  let prices := grp.filterMap (fun r => r.min_charge2)
  { airline := a
    avg_rate := round2 (listMean prices)
    min_rate := round2 (listMin prices)
    max_rate := round2 (listMax prices)
    total_bids := prices.length
    routes_served := (grp.filterMap (fun r => r.route)).dedup.length
    competitiveness_score := round2
      (if 0 < grp.length then
        ((grp.filter (fun r => decide (r.rating = some 1))).length : ℚ) / (grp.length : ℚ) * 100
      else 0) }

/-- savingsReport states what the cost-optimization block actually
reports for a route with more than one record: savings equal to
baseline price minus recommended price, and a finite percentage
100 * savings / baseline.price exactly when the baseline price is
nonzero (the division of line 379 carries no zero guard). -/
def savingsReport (rd : List BidRecord) : Prop :=
  ∃ rec, show_carrier_insights rd = some rec ∧
    rec.savingsInfo = some (priceOf rec.baseline - priceOf rec.recommended,
      if priceOf rec.baseline = 0 then none
      else some (100 * (priceOf rec.baseline - priceOf rec.recommended) / priceOf rec.baseline))

/-- routeSummaryClaims collects the route-summary properties the spec
states for a nonempty route group: carrier_count is the number of
distinct airlines, min and max price are attained lower and upper
bounds of the group prices, the mean times the count is the sum, the
spread is max minus min (0 on a singleton group), and the returned
route records are a permutation of the group. -/
def routeSummaryClaims (df : List BidRecord) (origin dest : Cell)
    (s : RouteSummary) (rd : List BidRecord) : Prop :=
  let grp := routeGroup df origin dest
  let prices := grp.filterMap (fun r => r.min_charge2)
  grp ≠ [] ∧
  s.carrier_count = (grp.map (fun r => r.airline)).toFinset.card ∧
  s.min_price ∈ prices ∧ (∀ q ∈ prices, s.min_price ≤ q) ∧
  s.max_price ∈ prices ∧ (∀ q ∈ prices, q ≤ s.max_price) ∧
  s.mean_price * (prices.length : ℚ) = prices.sum ∧
  s.price_spread = s.max_price - s.min_price ∧
  (rd.length = 1 → s.price_spread = 0) ∧
  rd.Perm grp

/-- carrierScoreClaims states the competitiveness-score contract as the
code realizes it: 0 for an empty group, and otherwise the rounded-to-
two-decimals value of 100 times the count of rating-1 (Best) bids over
total_bids. -/
def carrierScoreClaims (df : List BidRecord) (a : Cell) : Prop :=
  let grp := carrierGroup df a
  let s := carrierStats df a
  (grp = [] → s.competitiveness_score = 0) ∧
  (grp ≠ [] → s.total_bids = grp.length ∧
    s.competitiveness_score =
      round2 (100 * ((grp.filter (fun r => decide (r.rating = some 1))).length : ℚ) /
        (s.total_bids : ℚ)))

/-- stdHeaders is a header row shaped like the expected source sheet:
the key positional columns of line 111 (indices 3, 4 and 13) carry the
airport and airline labels, and the named columns the normalizer needs
are present. -/
def stdHeaders : List Cell :=
  [Cell.str "Commodity Group", Cell.str "TempControlled", Cell.str "Air Mode",
   Cell.str "Origin Airport", Cell.str "Destination Airport", Cell.str "Origin Country",
   Cell.str "Destinatin Country", Cell.str "Origin Region", Cell.str "Destination Region",
   Cell.str "Direct / Indirect", Cell.str "Via", Cell.str "Currency", Cell.str "Min Charge",
   Cell.str "Airline", Cell.str "Min Charge2", Cell.str "Numerical Rating", Cell.str "Column1"]

/-- mkRow builds one data row over the stdHeaders span. -/
def mkRow (o d a mc rt cat : Cell) : List Cell :=
  [Cell.empty, Cell.empty, Cell.empty, o, d, Cell.empty, Cell.empty, Cell.empty,
   Cell.empty, Cell.empty, Cell.empty, Cell.empty, Cell.empty, a, mc, rt, cat]

/-- mkRec builds a validated record directly, for feeding the
aggregation functions the way main feeds them the loaded dataframe. -/
def mkRec (o d a : String) (price : ℚ) (rt : Option ℚ) : BidRecord :=
  { origin_airport := Cell.str o
    destination_airport := Cell.str d
    airline := Cell.str a
    min_charge2 := some price
    rating := rt
    rating_category := none
    route := some (o ++ " → " ++ d)
    color := get_color_from_rating rt }

/-- c1zero is a zero-priced valid bid: min_charge2 is 0, which is
non-null and so survives both the reader filter and the dropna. -/
def c1zero : BidRecord := mkRec "JFK" "LHR" "AA" 0 (some 1)

/-- c1ra and c1rb form a two-carrier route with prices 100 and 200. -/
def c1ra : BidRecord := mkRec "JFK" "LHR" "AA" 100 (some 1)

/-- c1rb is the 200-priced bid of the two-carrier route. -/
def c1rb : BidRecord := mkRec "JFK" "LHR" "BA" 200 (some 3)

/-- c4s is a single valid bid, making a singleton route. -/
def c4s : BidRecord := mkRec "JFK" "LHR" "AA" 100 (some 1)

/-- c3row is a data row whose origin cell holds the empty string: it is
falsy (dropped by the reader filter of line 111) yet non-null (the
dropna validity check of line 175 would keep it). -/
def c3row : List Cell :=
  mkRow (Cell.str "") (Cell.str "LHR") (Cell.str "BA") (Cell.num 100) (Cell.num 1)
    (Cell.str "Green")

/-- c3wb is a well-formed workbook whose only data row is c3row. -/
def c3wb : Workbook :=
  { sheetnames := ["Airline Bids"], headerCells := stdHeaders, dataRows := [c3row] }

/-- c3rec is the record normalization produces from c3row: every dropna
field is non-null, so the validator would retain it. -/
def c3rec : BidRecord :=
  { origin_airport := Cell.str ""
    destination_airport := Cell.str "LHR"
    airline := Cell.str "BA"
    min_charge2 := some 100
    rating := some 1
    rating_category := some "Green"
    route := some " → LHR"
    color := "#10b981" }

/-- c3wRow is a reader-surviving row whose price cell is the
unparseable string abc: the numeric coercion nulls the field. -/
def c3wRow : List Cell :=
  mkRow (Cell.str "JFK") (Cell.str "LHR") (Cell.str "BA") (Cell.str "abc") (Cell.num 1)
    (Cell.str "Green")

/-- c3wWb is a workbook whose only data row is c3wRow. -/
def c3wWb : Workbook :=
  { sheetnames := ["Airline Bids"], headerCells := stdHeaders, dataRows := [c3wRow] }

/-- c3wRec is the record normalization produces from c3wRow: the
unparseable price became null, and the row reached the validator. -/
def c3wRec : BidRecord :=
  { origin_airport := Cell.str "JFK"
    destination_airport := Cell.str "LHR"
    airline := Cell.str "BA"
    min_charge2 := none
    rating := some 1
    rating_category := some "Green"
    route := some "JFK → LHR"
    color := "#10b981" }

/-- c5wb is a workbook with one fully valid data row. -/
def c5wb : Workbook :=
  { sheetnames := ["Airline Bids"]
    headerCells := stdHeaders
    dataRows := [mkRow (Cell.str "JFK") (Cell.str "LHR") (Cell.str "BA") (Cell.num 100)
      (Cell.num 1) (Cell.str "Green")] }

/-- c5rec is the single record loaded from c5wb. -/
def c5rec : BidRecord :=
  { origin_airport := Cell.str "JFK"
    destination_airport := Cell.str "LHR"
    airline := Cell.str "BA"
    min_charge2 := some 100
    rating := some 1
    rating_category := some "Green"
    route := some "JFK → LHR"
    color := "#10b981" }

/-- c6cexDf is one airline with three valid bids, one of them rated
Best: the exact score 100/3 is not representable after round(2). -/
def c6cexDf : List BidRecord :=
  [mkRec "JFK" "LHR" "A" 10 (some 1),
   mkRec "JFK" "CDG" "A" 20 (some 2),
   mkRec "JFK" "FRA" "A" 30 (some 2)]

/-- c6exDf is one airline with four valid bids, two of them rated
Best, the case named by the spec. -/
def c6exDf : List BidRecord :=
  [mkRec "JFK" "LHR" "A" 10 (some 1),
   mkRec "JFK" "CDG" "A" 20 (some 1),
   mkRec "JFK" "FRA" "A" 30 (some 2),
   mkRec "JFK" "AMS" "A" 40 (some 3)]

/-- c7df is the end-to-end route of the spec: three carriers on
JFK-LHR priced 100, 150 and 200. -/
def c7df : List BidRecord :=
  [mkRec "JFK" "LHR" "A" 100 (some 1),
   mkRec "JFK" "LHR" "B" 150 (some 2),
   mkRec "JFK" "LHR" "C" 200 (some 3)]

/-- c8wb is a workbook without the required Airline Bids sheet. -/
def c8wb : Workbook :=
  { sheetnames := ["Sheet1"], headerCells := [], dataRows := [] }

/-- c10wb has the required sheet but none of the expected columns, so
the body raises a KeyError when building the route column. -/
def c10wb : Workbook :=
  { sheetnames := ["Airline Bids"], headerCells := [], dataRows := [] }

/-- c9rec is a sample record for the idempotence witness. -/
def c9rec : BidRecord := mkRec "JFK" "LHR" "ZZ" 42 (some 2)

theorem mapExcept_length {α β : Type} (f : α → Except LoadError β) :
    ∀ (l : List α) (out : List β), mapExcept f l = Except.ok out → out.length = l.length := by
  intro l
  induction l with
  | nil =>
    intro out h
    simp only [mapExcept] at h
    injection h with h2
    rw [← h2]
    rfl
  | cons a as ih =>
    intro out h
    simp only [mapExcept] at h
    cases hfa : f a with
    | error e => rw [hfa] at h; exact Except.noConfusion h
    | ok b =>
      rw [hfa] at h
      cases hrest : mapExcept f as with
      | error e => rw [hrest] at h; exact Except.noConfusion h
      | ok bs =>
        rw [hrest] at h
        injection h with h2
        rw [← h2]
        simp [ih bs hrest]

theorem validRecord_isSome {r : BidRecord} (h : validRecord r = true) :
    r.min_charge2.isSome = true := by
  simp only [validRecord, Bool.and_eq_true] at h
  exact h.2

theorem validRecord_airline {r : BidRecord} (h : validRecord r = true) :
    r.airline ≠ Cell.empty := by
  simp only [validRecord, Bool.and_eq_true, decide_eq_true_eq] at h
  exact h.1.2

theorem filterMap_price_length :
    ∀ l : List BidRecord, (∀ r ∈ l, (r.min_charge2).isSome = true) →
      (l.filterMap (fun r => r.min_charge2)).length = l.length := by
  intro l
  induction l with
  | nil => intro _; rfl
  | cons r rs ih =>
    intro h
    obtain ⟨q, hq⟩ := Option.isSome_iff_exists.mp (h r (List.mem_cons_self r rs))
    rw [List.filterMap_cons, hq]
    simp only [List.length_cons]
    rw [ih (fun x hx => h x (List.mem_cons_of_mem r hx))]

theorem minStep_le_left (a b : ℚ) : minStep a b ≤ a := by
  unfold minStep
  by_cases h : b < a
  · rw [if_pos h]; exact h.le
  · rw [if_neg h]

theorem minStep_le_right (a b : ℚ) : minStep a b ≤ b := by
  unfold minStep
  by_cases h : b < a
  · rw [if_pos h]
  · rw [if_neg h]; exact le_of_not_lt h

theorem minStep_eq_or (a b : ℚ) : minStep a b = a ∨ minStep a b = b := by
  unfold minStep
  by_cases h : b < a
  · right; rw [if_pos h]
  · left; rw [if_neg h]

theorem le_maxStep_left (a b : ℚ) : a ≤ maxStep a b := by
  unfold maxStep
  by_cases h : a < b
  · rw [if_pos h]; exact h.le
  · rw [if_neg h]

theorem le_maxStep_right (a b : ℚ) : b ≤ maxStep a b := by
  unfold maxStep
  by_cases h : a < b
  · rw [if_pos h]
  · rw [if_neg h]; exact le_of_not_lt h

theorem maxStep_eq_or (a b : ℚ) : maxStep a b = a ∨ maxStep a b = b := by
  unfold maxStep
  by_cases h : a < b
  · right; rw [if_pos h]
  · left; rw [if_neg h]

theorem foldl_minStep_le (l : List ℚ) :
    ∀ a : ℚ, l.foldl minStep a ≤ a ∧ ∀ q ∈ l, l.foldl minStep a ≤ q := by
  induction l with
  | nil => intro a; exact ⟨le_refl a, by simp⟩
  | cons x xs ih =>
    intro a
    obtain ⟨h1, h2⟩ := ih (minStep a x)
    rw [List.foldl_cons]
    refine ⟨h1.trans (minStep_le_left a x), ?_⟩
    intro q hq
    rcases List.mem_cons.mp hq with h | h
    · rw [h]; exact h1.trans (minStep_le_right a x)
    · exact h2 q h

theorem foldl_minStep_mem (l : List ℚ) :
    ∀ a : ℚ, l.foldl minStep a = a ∨ l.foldl minStep a ∈ l := by
  induction l with
  | nil => intro a; left; rfl
  | cons x xs ih =>
    intro a
    rw [List.foldl_cons]
    rcases ih (minStep a x) with h | h
    · rcases minStep_eq_or a x with h2 | h2
      · left; rw [h, h2]
      · right; rw [h, h2]; exact List.mem_cons_self x xs
    · right; exact List.mem_cons_of_mem x h

theorem foldl_maxStep_ge (l : List ℚ) :
    ∀ a : ℚ, a ≤ l.foldl maxStep a ∧ ∀ q ∈ l, q ≤ l.foldl maxStep a := by
  induction l with
  | nil => intro a; exact ⟨le_refl a, by simp⟩
  | cons x xs ih =>
    intro a
    obtain ⟨h1, h2⟩ := ih (maxStep a x)
    rw [List.foldl_cons]
    refine ⟨(le_maxStep_left a x).trans h1, ?_⟩
    intro q hq
    rcases List.mem_cons.mp hq with h | h
    · rw [h]; exact (le_maxStep_right a x).trans h1
    · exact h2 q h

theorem foldl_maxStep_mem (l : List ℚ) :
    ∀ a : ℚ, l.foldl maxStep a = a ∨ l.foldl maxStep a ∈ l := by
  induction l with
  | nil => intro a; left; rfl
  | cons x xs ih =>
    intro a
    rw [List.foldl_cons]
    rcases ih (maxStep a x) with h | h
    · rcases maxStep_eq_or a x with h2 | h2
      · left; rw [h, h2]
      · right; rw [h, h2]; exact List.mem_cons_self x xs
    · right; exact List.mem_cons_of_mem x h

theorem listMin_mem (l : List ℚ) (h : l ≠ []) : listMin l ∈ l := by
  cases l with
  | nil => exact absurd rfl h
  | cons q qs =>
    simp only [listMin]
    rcases foldl_minStep_mem qs q with h2 | h2
    · rw [h2]; exact List.mem_cons_self q qs
    · exact List.mem_cons_of_mem q h2

theorem listMin_le (l : List ℚ) (q : ℚ) (hq : q ∈ l) : listMin l ≤ q := by
  cases l with
  | nil => cases hq
  | cons a as =>
    simp only [listMin]
    rcases List.mem_cons.mp hq with h | h
    · rw [h]; exact (foldl_minStep_le as a).1
    · exact (foldl_minStep_le as a).2 q h

theorem listMax_mem (l : List ℚ) (h : l ≠ []) : listMax l ∈ l := by
  cases l with
  | nil => exact absurd rfl h
  | cons q qs =>
    simp only [listMax]
    rcases foldl_maxStep_mem qs q with h2 | h2
    · rw [h2]; exact List.mem_cons_self q qs
    · exact List.mem_cons_of_mem q h2

theorem le_listMax (l : List ℚ) (q : ℚ) (hq : q ∈ l) : q ≤ listMax l := by
  cases l with
  | nil => cases hq
  | cons a as =>
    simp only [listMax]
    rcases List.mem_cons.mp hq with h | h
    · rw [h]; exact (foldl_maxStep_ge as a).1
    · exact (foldl_maxStep_ge as a).2 q h

theorem insertByPrice_perm (r : BidRecord) (l : List BidRecord) :
    (insertByPrice r l).Perm (r :: l) := by
  induction l with
  | nil => exact List.Perm.refl _
  | cons x xs ih =>
    unfold insertByPrice
    by_cases h : priceOf r ≤ priceOf x
    · rw [if_pos h]
    · rw [if_neg h]
      exact List.Perm.trans (List.Perm.cons x ih) (List.Perm.swap r x xs)

theorem sortByPrice_perm (l : List BidRecord) : (sortByPrice l).Perm l := by
  induction l with
  | nil => exact List.Perm.refl _
  | cons r rs ih =>
    unfold sortByPrice
    exact List.Perm.trans (insertByPrice_perm r (sortByPrice rs)) (List.Perm.cons r ih)

theorem loadDataBody_ok (wb : Workbook) (l : List BidRecord)
    (h : loadDataBody wb = Except.ok l) :
    ∃ recs0 : List BidRecord, l = recs0.filter validRecord := by
  unfold loadDataBody at h
  cases hf : filterRowsM (paddedRows wb) with
  | error e => rw [hf] at h; exact Except.noConfusion h
  | ok rows =>
    rw [hf] at h
    dsimp only at h
    cases hn : normalizeRows (mkHeaders wb.headerCells) rows with
    | error e => rw [hn] at h; exact Except.noConfusion h
    | ok recs0 =>
      rw [hn] at h
      dsimp only at h
      injection h with h2
      exact ⟨recs0, h2.symm⟩

theorem normalizeRows_length (headers : List Cell) (rows : List (List Cell))
    (recs : List BidRecord) (h : normalizeRows headers rows = Except.ok recs) :
    recs.length = rows.length := by
  unfold normalizeRows at h
  cases h1 : colIdx headers "origin_airport" with
  | none => rw [h1] at h; exact Except.noConfusion h
  | some oIdx =>
    rw [h1] at h
    dsimp only at h
    cases h2 : colIdx headers "destination_airport" with
    | none => rw [h2] at h; exact Except.noConfusion h
    | some dIdx =>
      rw [h2] at h
      dsimp only at h
      cases h3 : mapExcept (fun row => routeOfPair (row.getD oIdx Cell.empty) (row.getD dIdx Cell.empty)) rows with
      | error e => rw [h3] at h; exact Except.noConfusion h
      | ok routes =>
        rw [h3] at h
        dsimp only at h
        cases h4 : colIdx headers "rating" with
        | none => rw [h4] at h; exact Except.noConfusion h
        | some rIdx =>
          rw [h4] at h
          dsimp only at h
          cases h5 : colIdx headers "airline" with
          | none => rw [h5] at h; exact Except.noConfusion h
          | some aIdx =>
            rw [h5] at h
            dsimp only at h
            cases h6 : colIdx headers "min_charge2" with
            | none => rw [h6] at h; exact Except.noConfusion h
            | some mIdx =>
              rw [h6] at h
              dsimp only at h
              injection h with h7
              rw [← h7]
              simp [List.length_zip, mapExcept_length _ rows routes h3]

/-- C8: for every workbook whose sheet list lacks the exactly
configured name Airline Bids, load_data hits the fatal sheet-not-found
branch (lines 88-90) and returns None, so no records at all are
produced and ingestion never continues with partial data. -/
theorem c8_theorem (wb : Workbook) (h : "Airline Bids" ∉ wb.sheetnames) :
    loadData wb = none := by
  unfold loadData
  rw [if_neg h]

theorem c8_witness : loadData c8wb = none :=
  c8_theorem c8wb (by decide)

/-- C10: load_data never raises: any exception of the ingestion body
(modelled by loadDataBody returning an error, for example the KeyError
of a missing expected column or the IndexError of a short row span) is
caught by the handler of lines 179-181 and the function returns None
instead of propagating the exception. -/
theorem c10_theorem (wb : Workbook) (e : LoadError)
    (h : loadDataBody wb = Except.error e) : loadData wb = none := by
  unfold loadData
  by_cases hm : "Airline Bids" ∈ wb.sheetnames
  · rw [if_pos hm, h]
  · rw [if_neg hm]

theorem c10_witness : loadData c10wb = none :=
  c10_theorem c10wb LoadError.keyError rfl

/-- C9: the Validator/Filter of line 175 is idempotent: filtering an
already-filtered record set returns it unchanged. -/
theorem c9_theorem (l : List BidRecord) :
    (l.filter validRecord).filter validRecord = l.filter validRecord := by
  induction l with
  | nil => rfl
  | cons r rs ih =>
    by_cases h : validRecord r
    · simp [List.filter_cons, h, ih]
    · simp [List.filter_cons, h, ih]

theorem c9_witness :
    (([c9rec].filter validRecord).filter validRecord) = [c9rec].filter validRecord :=
  c9_theorem [c9rec]

/-- C4 counterexample: on a route with exactly one record the code
takes recommended == baseline (line 361) but skips the whole
cost-optimization block (line 377), so no savings and no savings_pct
are reported at all; in particular what is reported differs from the
claimed report of savings = 0 and savings_pct = 0. -/
theorem c4_counterexample :
    show_carrier_insights [c4s] =
      some { recommended := c4s, baseline := c4s, savingsInfo := none }
    ∧ (none : Option (ℚ × Option ℚ)) ≠ some (0, some 0) :=
  ⟨rfl, by decide⟩

/-- C4 (amended): for a route with exactly one record the
recommendation reports recommended == baseline, and reports no savings
figures at all (the block guarded by len > 1 at line 377 is skipped),
rather than reporting savings = 0 and savings_pct = 0. -/
theorem c4_theorem (r : BidRecord) :
    show_carrier_insights [r] =
      some { recommended := r, baseline := r, savingsInfo := none } :=
  rfl

theorem c4_witness :
    show_carrier_insights [c4s] =
      some { recommended := c4s, baseline := c4s, savingsInfo := none } :=
  c4_theorem c4s

/-- C2 counterexample: the categorical label green does not map to the
Best tier color: pd.to_numeric coerces it to null, so the classifier
of lines 155-165 yields the gray Unknown color, while the numeric
rating 1 yields green; the claimed encoding-independence fails. -/
theorem c2_counterexample :
    get_color_from_rating (toNumeric (Cell.str "green")) = "#6b7280"
    ∧ get_color_from_rating (toNumeric (Cell.num 1)) = "#10b981"
    ∧ ("#6b7280" : String) ≠ "#10b981" :=
  ⟨rfl, rfl, by decide⟩

/-- C2 (amended): only the numeric rating determines the tier color:
1 is green (Best), 2 orange (Fair), 3 red (Premium), null or any other
number gray (Unknown); a string label in the rating column coerces to
null and therefore yields the gray Unknown color regardless of its
content or case — categorical labels are never matched against
green/orange/red. -/
theorem c2_theorem :
    (∀ s : String, parseDecimal s = none →
      get_color_from_rating (toNumeric (Cell.str s)) = "#6b7280")
    ∧ get_color_from_rating (toNumeric (Cell.num 1)) = "#10b981"
    ∧ get_color_from_rating (toNumeric (Cell.num 2)) = "#f59e0b"
    ∧ get_color_from_rating (toNumeric (Cell.num 3)) = "#ef4444"
    ∧ get_color_from_rating none = "#6b7280"
    ∧ (∀ q : ℚ, q ≠ 1 → q ≠ 2 → q ≠ 3 → get_color_from_rating (some q) = "#6b7280") := by
  refine ⟨?_, rfl, ?_, ?_, rfl, ?_⟩
  · intro s h
    simp only [toNumeric, h, get_color_from_rating]
  · simp only [toNumeric, get_color_from_rating]
    norm_num
  · simp only [toNumeric, get_color_from_rating]
    norm_num
  · intro q h1 h2 h3
    simp [get_color_from_rating, h1, h2, h3]

theorem c2_witness : get_color_from_rating (toNumeric (Cell.str "ORANGE")) = "#6b7280" :=
  c2_theorem.1 "ORANGE" rfl

/-- C5: every record in the output of the Validator/Filter has
origin_airport, destination_airport, airline and min_charge2 non-null
(first part: every successfully loaded record set consists of valid
records only, and the aggregators of main consume exactly loadData
output), and the filter retains exactly the records satisfying the
validity predicate (second part: membership in the filtered set is
membership in the normalized set plus validity). -/
theorem c5_theorem :
    (∀ (wb : Workbook) (recs : List BidRecord), loadData wb = some recs →
      ∀ r ∈ recs, validRecord r = true)
    ∧ (∀ (l : List BidRecord) (r : BidRecord),
        r ∈ l.filter validRecord ↔ (r ∈ l ∧ validRecord r = true)) := by
  constructor
  · intro wb recs h r hr
    unfold loadData at h
    by_cases hm : "Airline Bids" ∈ wb.sheetnames
    · rw [if_pos hm] at h
      cases hb : loadDataBody wb with
      | error e => rw [hb] at h; exact Option.noConfusion h
      | ok l =>
        rw [hb] at h
        dsimp only at h
        injection h with h2
        obtain ⟨recs0, hl⟩ := loadDataBody_ok wb l hb
        rw [← h2, hl] at hr
        exact (List.mem_filter.mp hr).2
    · rw [if_neg hm] at h
      exact Option.noConfusion h
  · intro l r
    exact List.mem_filter

theorem c5_witness : validRecord c5rec = true :=
  c5_theorem.1 c5wb [c5rec] rfl c5rec (List.mem_singleton.mpr rfl)

/-- C3 counterexample: a row whose origin-airport cell holds the empty
string is dropped by the reader filter of line 111 (empty string is
falsy) even though normalization would have produced a record that the
validator of line 175 retains (the empty string is non-null): the row
is not propagated to the Validator, and a row is dropped before
validation for a reason other than the hard validity check. -/
theorem c3_counterexample :
    rowCheck c3row = Except.ok false
    ∧ normalizeRows stdHeaders [c3row] = Except.ok [c3rec]
    ∧ validRecord c3rec = true
    ∧ loadData c3wb = some [] :=
  ⟨rfl, rfl, rfl, rfl⟩

/-- C3 (amended): row-level soft failures (an unparseable numeric
field) only null the affected field and the row still reaches the
Validator — every reader-surviving row yields exactly one normalized
record, and the loaded set is exactly those records filtered by the
validity check; however the Reader itself already drops rows whose
origin-airport, destination-airport or airline cell is falsy (null,
empty string or zero), so the Validator is not the only stage that
drops rows. -/
theorem c3_theorem (wb : Workbook) (rows : List (List Cell)) (recs : List BidRecord)
    (hf : filterRowsM (paddedRows wb) = Except.ok rows)
    (hn : normalizeRows (mkHeaders wb.headerCells) rows = Except.ok recs)
    (hm : "Airline Bids" ∈ wb.sheetnames) :
    loadData wb = some (recs.filter validRecord) ∧ recs.length = rows.length := by
  constructor
  · unfold loadData
    rw [if_pos hm]
    unfold loadDataBody
    rw [hf]
    dsimp only
    rw [hn]
  · exact normalizeRows_length (mkHeaders wb.headerCells) rows recs hn

theorem c3_witness :
    loadData c3wWb = some ([c3wRec].filter validRecord) ∧ [c3wRec].length = [c3wRow].length :=
  c3_theorem c3wWb [c3wRow] [c3wRec] rfl rfl (by decide)

/-- C1 counterexample: a route holding two bids both priced 0 has a
baseline price of 0, and the unguarded division of line 379 then
produces a non-finite value (modelled none), so the reported
percentage differs from the claimed guarded value 0. -/
theorem c1_counterexample :
    show_carrier_insights [c1zero, c1zero] =
      some { recommended := c1zero, baseline := c1zero, savingsInfo := some (0, none) }
    ∧ (some ((0 : ℚ), (none : Option ℚ))) ≠ some (0, some 0) := by
  constructor
  · simp only [show_carrier_insights, argminBy, argmaxBy, priceOf, c1zero, mkRec, fdiv]
    norm_num
  · decide

/-- C1 (amended): for every route record set with at least two
records, the reported savings equal baseline price minus recommended
price, and savings_pct equals 100 * savings / baseline.price whenever
the baseline price is nonzero; when the baseline price is 0 the
division of line 379 is unguarded and the reported percentage is the
non-finite float value (modelled none), not 0. -/
theorem c1_theorem (rd : List BidRecord) (h : 1 < rd.length) : savingsReport rd := by
  cases rd with
  | nil => simp at h
  | cons r rs =>
    unfold savingsReport
    simp only [show_carrier_insights, argminBy, argmaxBy]
    rw [if_pos h, if_pos h]
    refine ⟨_, rfl, ?_⟩
    simp only [fdiv]
    by_cases hw : priceOf ((Option.some (List.foldl (fun acc x =>
        if priceOf acc < priceOf x then x else acc) r rs)).getD
        (List.foldl (fun acc x => if priceOf x < priceOf acc then x else acc) r rs)) = 0
    · rw [if_pos hw, if_pos hw]
      rfl
    · rw [if_neg hw, if_neg hw]
      have hmap : ∀ x : ℚ, Option.map (fun p => p * 100) (some x) = some (x * 100) :=
        fun x => rfl
      rw [hmap]
      congr 1
      ring_nf

theorem c1_witness : savingsReport [c1ra, c1rb] :=
  c1_theorem [c1ra, c1rb] (by decide)

/-- C6 counterexample: an airline with three valid bids, one of them
rated Best, stores a competitiveness score of 33.33 (the frame of
lines 435-443 is rounded to two decimals by round(2)), which is not
the exact claimed value 100 * 1 / 3. -/
theorem c6_counterexample :
    (carrierStats c6cexDf (Cell.str "A")).total_bids = 3
    ∧ (c6cexDf.filter (fun r => decide (r.rating = some 1))).length = 1
    ∧ (carrierStats c6cexDf (Cell.str "A")).competitiveness_score = 3333 / 100
    ∧ (carrierStats c6cexDf (Cell.str "A")).competitiveness_score ≠ 100 * 1 / 3 := by
  refine ⟨rfl, rfl, ?_, ?_⟩
  · simp only [carrierStats, carrierGroup, c6cexDf, mkRec, round2, List.filter, List.filterMap]
    norm_num [round_eq]
  · simp only [carrierStats, carrierGroup, c6cexDf, mkRec, round2, List.filter, List.filterMap]
    norm_num [round_eq]

/-- C6 (amended): for every carrier group over validated records the
competitiveness score equals round2 (100 * count of rating-1 bids /
total_bids), with 0 for an empty group (never a division by zero), and
total_bids is the group size; in particular an airline with 4 valid
bids of which 2 are rated Best scores exactly 50. -/
theorem c6_theorem :
    (∀ (df : List BidRecord) (a : Cell), (∀ r ∈ df, validRecord r = true) →
      carrierScoreClaims df a)
    ∧ (carrierStats c6exDf (Cell.str "A")).competitiveness_score = 50 := by
  constructor
  · intro df a hval
    simp only [carrierScoreClaims]
    refine ⟨?_, ?_⟩
    · intro hempty
      simp only [carrierStats]
      rw [hempty]
      norm_num [round2, round_zero]
    · intro hne
      have hvgrp : ∀ r ∈ carrierGroup df a, validRecord r = true := by
        intro r hr
        simp only [carrierGroup] at hr
        exact hval r (List.mem_filter.mp hr).1
      have htot : (List.filterMap (fun r => r.min_charge2) (carrierGroup df a)).length =
          (carrierGroup df a).length :=
        filterMap_price_length _ (fun r hr => validRecord_isSome (hvgrp r hr))
      have htotS : (carrierStats df a).total_bids = (carrierGroup df a).length := by
        simp only [carrierStats]
        exact htot
      refine ⟨htotS, ?_⟩
      have hlen : 0 < (carrierGroup df a).length := List.length_pos.mpr hne
      rw [htotS]
      simp only [carrierStats]
      rw [if_pos hlen]
      exact congrArg round2 (by ring)
  · simp only [carrierStats, carrierGroup, c6exDf, mkRec, round2, List.filter, List.filterMap]
    norm_num [round_eq]

theorem c6_witness : carrierScoreClaims c6exDf (Cell.str "A") :=
  c6_theorem.1 c6exDf (Cell.str "A") (by decide)

/-- C7: for every route group of validated records the route summary
reports carrier_count as the number of distinct airlines in the group,
min_price and max_price as attained lower and upper bounds over
min_charge2, mean_price times the group size as the price sum,
price_spread as max minus min with 0 for a singleton group, and the
returned records are a permutation of the group; on the concrete route
with prices 100, 150, 200 it yields carrier_count 3, min 100,
mean 150, max 200, spread 100. -/
theorem c7_theorem :
    (∀ (df : List BidRecord) (origin dest : Cell) (s : RouteSummary) (rd : List BidRecord),
      (∀ r ∈ df, validRecord r = true) →
      create_route_analysis df origin dest = some (s, rd) →
      routeSummaryClaims df origin dest s rd)
    ∧ create_route_analysis c7df (Cell.str "JFK") (Cell.str "LHR") =
        some ({ carrier_count := 3, min_price := 100, mean_price := 150,
                max_price := 200, price_spread := 100 }, c7df) := by
  constructor
  · intro df origin dest s rd hval h
    simp only [create_route_analysis] at h
    by_cases hE : (routeGroup df origin dest).isEmpty
    · rw [if_pos hE] at h
      exact Option.noConfusion h
    · rw [if_neg hE] at h
      injection h with h2
      rw [Prod.mk.injEq] at h2
      obtain ⟨hs, hr⟩ := h2
      subst hs
      subst hr
      have hgrpne : routeGroup df origin dest ≠ [] := by
        intro hnil
        rw [hnil] at hE
        exact hE rfl
      have hvgrp : ∀ r ∈ routeGroup df origin dest, validRecord r = true := by
        intro r hrm
        simp only [routeGroup] at hrm
        exact hval r (List.mem_filter.mp hrm).1
      have hplen : (List.filterMap (fun r => r.min_charge2) (routeGroup df origin dest)).length =
          (routeGroup df origin dest).length :=
        filterMap_price_length _ (fun r hrm => validRecord_isSome (hvgrp r hrm))
      have hpne : List.filterMap (fun r => r.min_charge2) (routeGroup df origin dest) ≠ [] := by
        intro hp
        rw [hp] at hplen
        exact hgrpne (List.length_eq_zero.mp (by simpa using hplen.symm))
      simp only [routeSummaryClaims]
      refine ⟨hgrpne, ?_, ?_, ?_, ?_, ?_, ?_, ?_, ?_, ?_⟩
      · unfold nuniqueCells
        have hfil : ((routeGroup df origin dest).map (fun r => r.airline)).filter
            (fun c => decide (c ≠ Cell.empty)) =
            (routeGroup df origin dest).map (fun r => r.airline) := by
          apply List.filter_eq_self.mpr
          intro c hc
          obtain ⟨r, hrg, hre⟩ := List.mem_map.mp hc
          rw [← hre]
          simp only [decide_eq_true_eq]
          exact validRecord_airline (hvgrp r hrg)
        rw [hfil]
        exact (List.card_toFinset _).symm
      · exact listMin_mem _ hpne
      · intro q hq
        exact listMin_le _ q hq
      · exact listMax_mem _ hpne
      · intro q hq
        exact le_listMax _ q hq
      · simp only [listMean]
        rw [div_mul_cancel₀]
        exact Nat.cast_ne_zero.mpr (List.length_pos.mpr hpne).ne'
      · by_cases h1 : 1 < (routeGroup df origin dest).length
        · rw [if_pos h1]
        · rw [if_neg h1]
          have hg1 : (routeGroup df origin dest).length = 1 := by
            have := List.length_pos.mpr hgrpne
            omega
          have hp1 : (List.filterMap (fun r => r.min_charge2)
              (routeGroup df origin dest)).length = 1 := by
            rw [hplen, hg1]
          obtain ⟨p, hp⟩ := List.length_eq_one.mp hp1
          rw [hp]
          simp [listMax, listMin]
      · intro h1
        have hg1 : (routeGroup df origin dest).length = 1 := by
          rw [← (sortByPrice_perm (routeGroup df origin dest)).length_eq]
          exact h1
        rw [hg1]
        norm_num
      · exact sortByPrice_perm _
  · simp only [create_route_analysis, routeGroup, c7df, mkRec, List.filter, nuniqueCells,
      listMin, listMax, listMean, List.filterMap, sortByPrice, insertByPrice, priceOf]
    norm_num [round_eq]
    exact ⟨by rfl, by norm_num [minStep], by norm_num [maxStep], by norm_num [minStep, maxStep]⟩

theorem c7_witness :
    routeSummaryClaims c7df (Cell.str "JFK") (Cell.str "LHR")
      { carrier_count := 3, min_price := 100, mean_price := 150,
        max_price := 200, price_spread := 100 } c7df :=
  c7_theorem.1 c7df (Cell.str "JFK") (Cell.str "LHR") _ c7df (by decide) c7_theorem.2
